import Mathlib

/-!
Verification of the Oculus Rift S driver (`src/drv_oculus_rift_s/rift-s.c` and
its protocol header).  Machine integers are modelled as `Nat`/`Int` with
explicit reductions modulo `2^32` where the C code performs `uint32_t`
arithmetic; the C `float`/`double` values are modelled as exact rationals `ℚ`.
Calls to external collaborators (the fusion filter, the HID transport, the
logger) are modelled as events recorded in the state or returned as traces.
-/

namespace RiftS

/-- Earth gravity constant `OHMD_GRAVITY_EARTH = 9.80665` from rift-s.c. -/
def OHMD_GRAVITY_EARTH : ℚ := 980665 / 100000

/-- Model of OpenHMD's `vec3f` (three floats, here exact rationals). -/
structure vec3f where
  x : ℚ
  y : ℚ
  z : ℚ
deriving DecidableEq

/-- A 3×3 float matrix `float rot[3][3]`, stored as three rows. -/
structure mat3 where
  r0 : vec3f
  r1 : vec3f
  r2 : vec3f
deriving DecidableEq

/-- `vec3f_rotate_3x3` from rift-s.c:
`vec->arr[i] = rot[i][0]*in.arr[0] + rot[i][1]*in.arr[1] + rot[i][2]*in.arr[2]`. -/
def vec3f_rotate_3x3 (vec : vec3f) (rot : mat3) : vec3f :=
  { x := rot.r0.x * vec.x + rot.r0.y * vec.y + rot.r0.z * vec.z
    y := rot.r1.x * vec.x + rot.r1.y * vec.y + rot.r1.z * vec.z
    z := rot.r2.x * vec.x + rot.r2.y * vec.y + rot.r2.z * vec.z }

/-- Componentwise subtraction; models the correction loop
`accel.arr[j] -= offset.arr[j]` in `handle_hmd_report`. -/
def vec3f_sub (a b : vec3f) : vec3f :=
  { x := a.x - b.x, y := a.y - b.y, z := a.z - b.z }

/-- `rift_s_imu_config_t` (read using report 9): `imu_hz` is a `uint32_t`,
the four scales are floats. -/
structure rift_s_imu_config_t where
  imu_hz : ℕ
  gyro_scale : ℚ
  accel_scale : ℚ
  temperature_scale : ℚ
  temperature_offset : ℚ
deriving DecidableEq

/-- Accelerometer part of `rift_s_imu_calibration`: per-axis offset and 3×3
rectification matrix. -/
structure rift_s_imu_calib_accel where
  offset_at_0C : vec3f
  rectification : mat3
deriving DecidableEq

/-- Gyroscope part of `rift_s_imu_calibration`. -/
structure rift_s_imu_calib_gyro where
  offset : vec3f
  rectification : mat3
deriving DecidableEq

/-- `rift_s_imu_calibration`, parsed once from the firmware JSON blob at open
time. -/
structure rift_s_imu_calibration where
  accel : rift_s_imu_calib_accel
  gyro : rift_s_imu_calib_gyro
deriving DecidableEq

/-- `rift_s_hmd_imu_sample_t`: validity `marker` (`uint8_t`), raw 3-axis
accel and gyro (`int16_t`), raw temperature (`int16_t`). -/
structure rift_s_hmd_imu_sample_t where
  marker : ℕ
  accel : Fin 3 → ℤ
  gyro : Fin 3 → ℤ
  temperature : ℤ
deriving DecidableEq

/-- `rift_s_hmd_report_t`: the decoded head-motion report (leading id 0x65). -/
structure rift_s_hmd_report_t where
  unknown_const1 : ℕ
  timestamp : ℕ
  samples : Fin 3 → rift_s_hmd_imu_sample_t
  marker : ℕ
  unknown2 : ℕ
  frame_timestamp : ℕ
  unknown_zero1 : ℤ
  frame_id : ℤ
  unknown_zero2 : ℤ
deriving DecidableEq

/-- One call to the external collaborator
`ofusion_update(&priv->sensor_fusion, dt, &raw_gyro, &raw_accel, &raw_mag)`,
recorded as data. -/
structure FusionUpdate where
  dt : ℚ
  gyro : vec3f
  accel : vec3f
  mag : vec3f
deriving DecidableEq

/-- Orientation quaternion of the external fusion filter, read back by `getf`. -/
structure quatf where
  x : ℚ
  y : ℚ
  z : ℚ
  w : ℚ
deriving DecidableEq

/-- The driver state `struct rift_s_hmd_s`.  The externally owned fusion
filter is modelled by the list of `ofusion_update` calls it received
(`sensor_fusion`) plus its orientation readout (`fusion_orient`); the three
HID handles are modelled by their non-NULL-ness. -/
structure rift_s_hmd_t where
  use_count : ℤ
  handles_present : Fin 3 → Bool
  last_imu_timestamp : ℕ
  last_keep_alive : ℚ
  sensor_fusion : List FusionUpdate
  fusion_orient : quatf
  raw_mag : vec3f
  raw_accel : vec3f
  raw_gyro : vec3f
  temperature : ℚ
  display_on : Bool
  imu_config : rift_s_imu_config_t
  imu_calibration : rift_s_imu_calibration

/-- `uint32_t` subtraction `a - b` (two's-complement wraparound). -/
def u32_sub (a b : ℕ) : ℕ :=
  ((a % 4294967296) + 4294967296 - (b % 4294967296)) % 4294967296

/-- The scaled gyro vector of one sample, from `handle_hmd_report`:
`gyro_scale = imu_config.gyro_scale / 32768.0` and
`gyro.x = gyro_scale * s->gyro[0]` (and likewise y, z). -/
def hmd_scaled_gyro (cfg : rift_s_imu_config_t) (s : rift_s_hmd_imu_sample_t) : vec3f :=
  { x := cfg.gyro_scale / 32768 * (s.gyro 0 : ℚ)
    y := cfg.gyro_scale / 32768 * (s.gyro 1 : ℚ)
    z := cfg.gyro_scale / 32768 * (s.gyro 2 : ℚ) }

/-- The scaled accel vector of one sample, from `handle_hmd_report`:
`accel_scale = OHMD_GRAVITY_EARTH / imu_config.accel_scale` and
`accel.x = accel_scale * s->accel[0]` (and likewise y, z). -/
def hmd_scaled_accel (cfg : rift_s_imu_config_t) (s : rift_s_hmd_imu_sample_t) : vec3f :=
  { x := OHMD_GRAVITY_EARTH / cfg.accel_scale * (s.accel 0 : ℚ)
    y := OHMD_GRAVITY_EARTH / cfg.accel_scale * (s.accel 1 : ℚ)
    z := OHMD_GRAVITY_EARTH / cfg.accel_scale * (s.accel 2 : ℚ) }

/-- The body of one loop iteration of `handle_hmd_report` for a valid sample:
scale the raw integers, subtract the calibration offsets, rotate by the
rectification matrices, store `raw_accel`/`raw_gyro`/`temperature` and call
`ofusion_update` (recorded by appending to `sensor_fusion`). -/
def hmd_process_sample (priv : rift_s_hmd_t) (dt : ℚ)
    (s : rift_s_hmd_imu_sample_t) : rift_s_hmd_t :=
  let gyro0 := hmd_scaled_gyro priv.imu_config s
  let accel0 := hmd_scaled_accel priv.imu_config s
  /- Apply correction offsets first, then rectify -/
  let accel1 := vec3f_sub accel0 priv.imu_calibration.accel.offset_at_0C
  let gyro1 := vec3f_sub gyro0 priv.imu_calibration.gyro.offset
  let accel2 := vec3f_rotate_3x3 accel1 priv.imu_calibration.accel.rectification
  let gyro2 := vec3f_rotate_3x3 gyro1 priv.imu_calibration.gyro.rectification
  { priv with
      raw_accel := accel2
      raw_gyro := gyro2
      temperature :=
        1 / priv.imu_config.temperature_scale *
          ((s.temperature : ℚ) - priv.imu_config.temperature_offset) + 25
      sensor_fusion :=
        priv.sensor_fusion ++ [{ dt := dt, gyro := gyro2, accel := accel2, mag := priv.raw_mag }] }

/-- The sample loop of `handle_hmd_report`: iterate the (up to 3) samples in
order, breaking as soon as a sample's marker has bit 0x80 set; after the first
sample the integration interval is reset to `TICK_LEN` (`dt = TICK_LEN;` at
the end of each iteration). -/
def handle_samples (tick : ℚ) :
    rift_s_hmd_t → ℚ → List rift_s_hmd_imu_sample_t → rift_s_hmd_t
  | priv, _, [] => priv
  | priv, dt, s :: rest =>
    if s.marker &&& 0x80 ≠ 0 then priv /- Sample (and remaining ones) are invalid -/
    else handle_samples tick (hmd_process_sample priv dt s) tick rest

/-- The samples of a report in array order, as iterated by the C `for` loop. -/
def report_samples (r : rift_s_hmd_report_t) : List rift_s_hmd_imu_sample_t :=
  [r.samples 0, r.samples 1, r.samples 2]

/-- `handle_hmd_report` after a successful parse (lines 156–212 of rift-s.c):
`TICK_LEN = 1.0 / imu_hz`; `dt = TICK_LEN`, overwritten with
`(report.timestamp - last_imu_timestamp) / 1000000.0f` (a `uint32_t`
subtraction) whenever `last_imu_timestamp != 0`; then the sample loop; finally
`last_imu_timestamp = report.timestamp`. -/
def handle_hmd_report_parsed (priv : rift_s_hmd_t)
    (report : rift_s_hmd_report_t) : rift_s_hmd_t :=
  let tick : ℚ := 1 / (priv.imu_config.imu_hz : ℚ)
  let dt : ℚ :=
    if priv.last_imu_timestamp ≠ 0 then
      (u32_sub report.timestamp priv.last_imu_timestamp : ℚ) / 1000000
    else tick
  let priv1 := handle_samples tick priv dt (report_samples report)
  { priv1 with last_imu_timestamp := report.timestamp % 4294967296 }

/-- The identity calibration: zero offsets, identity rectification matrices. -/
def cal_identity : rift_s_imu_calibration :=
  ⟨⟨⟨0, 0, 0⟩, ⟨⟨1, 0, 0⟩, ⟨0, 1, 0⟩, ⟨0, 0, 1⟩⟩⟩,
   ⟨⟨0, 0, 0⟩, ⟨⟨1, 0, 0⟩, ⟨0, 1, 0⟩, ⟨0, 0, 1⟩⟩⟩⟩

/-- IMU configuration with `imu_hz = 1000` and unit scales. -/
def cfg1000 : rift_s_imu_config_t := ⟨1000, 1, 1, 1, 0⟩

/-- The session state right after a successful `open_hmd`: `use_count = 1`,
`last_imu_timestamp = -1` (i.e. `0xFFFFFFFF` in the `uint32_t` field), and the
remaining fields zeroed by `ohmd_alloc` (a calloc). -/
def open_hmd_state (cfg : rift_s_imu_config_t)
    (cal : rift_s_imu_calibration) : rift_s_hmd_t :=
  { use_count := 1
    handles_present := fun _ => true
    last_imu_timestamp := 4294967295
    last_keep_alive := 0
    sensor_fusion := []
    fusion_orient := ⟨0, 0, 0, 1⟩
    raw_mag := ⟨0, 0, 0⟩
    raw_accel := ⟨0, 0, 0⟩
    raw_gyro := ⟨0, 0, 0⟩
    temperature := 0
    display_on := false
    imu_config := cfg
    imu_calibration := cal }

/-- A valid all-zero inertial sample (`marker = 0`). -/
def zero_sample : rift_s_hmd_imu_sample_t := ⟨0, fun _ => 0, fun _ => 0, 0⟩

/-- A head-motion report carrying the given timestamp and three valid
all-zero samples. -/
def mk_report (ts : ℕ) : rift_s_hmd_report_t :=
  { unknown_const1 := 0, timestamp := ts, samples := fun _ => zero_sample,
    marker := 0, unknown2 := 0, frame_timestamp := 0,
    unknown_zero1 := 0, frame_id := 0, unknown_zero2 := 0 }

/-- Spec-side formula for the calibrated accelerometer vector, written as the
spec states it: first the unit conversion `raw × g / accel_scale`, then the
per-axis offset subtraction, then the row-vector transform
`out[i] = Σⱼ rot[i][j]·in[j]`. -/
def cal_spec_accel (cfg : rift_s_imu_config_t) (cal : rift_s_imu_calibration)
    (s : rift_s_hmd_imu_sample_t) : vec3f :=
  let inp0 : ℚ :=
    (s.accel 0 : ℚ) * OHMD_GRAVITY_EARTH / cfg.accel_scale - cal.accel.offset_at_0C.x
  let inp1 : ℚ :=
    (s.accel 1 : ℚ) * OHMD_GRAVITY_EARTH / cfg.accel_scale - cal.accel.offset_at_0C.y
  let inp2 : ℚ :=
    (s.accel 2 : ℚ) * OHMD_GRAVITY_EARTH / cfg.accel_scale - cal.accel.offset_at_0C.z
  let rot := cal.accel.rectification
  { x := rot.r0.x * inp0 + rot.r0.y * inp1 + rot.r0.z * inp2
    y := rot.r1.x * inp0 + rot.r1.y * inp1 + rot.r1.z * inp2
    z := rot.r2.x * inp0 + rot.r2.y * inp1 + rot.r2.z * inp2 }

/-- Spec-side formula for the calibrated gyroscope vector: unit conversion
`(raw/32768) × gyro_scale`, then offset subtraction, then the row-vector
transform `out[i] = Σⱼ rot[i][j]·in[j]`. -/
def cal_spec_gyro (cfg : rift_s_imu_config_t) (cal : rift_s_imu_calibration)
    (s : rift_s_hmd_imu_sample_t) : vec3f :=
  let inp0 : ℚ := (s.gyro 0 : ℚ) / 32768 * cfg.gyro_scale - cal.gyro.offset.x
  let inp1 : ℚ := (s.gyro 1 : ℚ) / 32768 * cfg.gyro_scale - cal.gyro.offset.y
  let inp2 : ℚ := (s.gyro 2 : ℚ) / 32768 * cfg.gyro_scale - cal.gyro.offset.z
  let rot := cal.gyro.rectification
  { x := rot.r0.x * inp0 + rot.r0.y * inp1 + rot.r0.z * inp2
    y := rot.r1.x * inp0 + rot.r1.y * inp1 + rot.r1.z * inp2
    z := rot.r2.x * inp0 + rot.r2.y * inp1 + rot.r2.z * inp2 }

/-- Byte access `buf[i]` into a report buffer (bytes as naturals < 256). -/
def byteAt (buf : List ℕ) (i : ℕ) : ℕ := buf.getD i 0

/-- Little-endian `uint16_t` at offset `o`. -/
def dec_u16 (buf : List ℕ) (o : ℕ) : ℕ := byteAt buf o + 256 * byteAt buf (o + 1)

/-- Little-endian `uint32_t` at offset `o`. -/
def dec_u32 (buf : List ℕ) (o : ℕ) : ℕ :=
  byteAt buf o + 256 * byteAt buf (o + 1) + 65536 * byteAt buf (o + 2) +
    16777216 * byteAt buf (o + 3)

/-- Little-endian two's-complement `int16_t` at offset `o`. -/
def dec_i16 (buf : List ℕ) (o : ℕ) : ℤ :=
  if dec_u16 buf o < 32768 then (dec_u16 buf o : ℤ) else (dec_u16 buf o : ℤ) - 65536

/-- One fixed-slot `rift_s_hmd_imu_sample_t` (15 bytes) at offset `o`. -/
def dec_sample (buf : List ℕ) (o : ℕ) : rift_s_hmd_imu_sample_t :=
  { marker := byteAt buf o
    accel := fun j => dec_i16 buf (o + 1 + 2 * (j : ℕ))
    gyro := fun j => dec_i16 buf (o + 7 + 2 * (j : ℕ))
    temperature := dec_i16 buf (o + 13) }

/-- Modelled from the spec: `rift_s_parse_hmd_report` is implemented in
`rift-s-protocol.c`, which is not among the sources here (only its header is).
Per the spec's Report Decoder, `decodeHeadMotion` fails when the buffer is
shorter than the fixed layout (64 bytes per the packed `rift_s_hmd_report_t`)
or its leading id is not the head-motion id `0x65`, and otherwise extracts the
device timestamp, the 3 fixed-slot inertial samples and the frame metadata. -/
def rift_s_parse_hmd_report (buf : List ℕ) (size : ℕ) :
    Option rift_s_hmd_report_t :=
  if size < 64 ∨ byteAt buf 0 ≠ 0x65 then none
  else some
    { unknown_const1 := dec_u16 buf 1
      timestamp := dec_u32 buf 3
      samples := fun i => dec_sample buf (7 + 15 * (i : ℕ))
      marker := byteAt buf 52
      unknown2 := byteAt buf 53
      frame_timestamp := dec_u32 buf 54
      unknown_zero1 := dec_i16 buf 58
      frame_id := dec_i16 buf 60
      unknown_zero2 := dec_i16 buf 62 }

/-- `handle_hmd_report` as called from `update_hmd` with a raw buffer: it
returns immediately if `rift_s_parse_hmd_report` fails, otherwise it runs the
sample pipeline. -/
def handle_hmd_report (priv : rift_s_hmd_t) (buf : List ℕ) : rift_s_hmd_t :=
  match rift_s_parse_hmd_report buf buf.length with
  | none => priv
  | some report => handle_hmd_report_parsed priv report

/-- One result of the non-blocking `hid_read`: a negative return value, a
zero-length read, or a buffer of bytes. -/
inductive ReadResult
  | readErr
  | readEmpty
  | readData (buf : List ℕ)
deriving DecidableEq

/-- Externally visible effects of one `update_hmd` invocation. -/
inductive PollEvent
  | evKeepalive
  | evScreenEnable (flag : Bool)
  | evLogReadError
  | evLogUnknownReport (id : ℕ)
deriving DecidableEq

/-- The report dispatch in `update_hmd`'s read loop: `buf[0] == 0x65` goes to
`handle_hmd_report`; `0x67` goes to `handle_controller_report` (which takes
only the buffer, touches no session state and at most prints); `0x66` runs the
proximity-sensor display toggle; anything else is logged with
`LOGW("Unknown Rift S report ...")` and skipped. -/
def process_report (priv : rift_s_hmd_t) (buf : List ℕ) :
    rift_s_hmd_t × List PollEvent :=
  if byteAt buf 0 = 0x65 then (handle_hmd_report priv buf, [])
  else if byteAt buf 0 = 0x67 then (priv, [])
  else if byteAt buf 0 = 0x66 then
    let prox : Bool := if byteAt buf 1 = 0 then false else true
    if prox ≠ priv.display_on then
      ({ priv with display_on := prox }, [PollEvent.evScreenEnable prox])
    else (priv, [])
  else (priv, [PollEvent.evLogUnknownReport (byteAt buf 0)])

/-- The `while(true)` read loop of `update_hmd` for one HID handle, over the
queue of pending `hid_read` results: a negative read logs
`LOGE("error reading from HMD device")` and breaks, a zero-length read breaks,
and a data read is dispatched and the loop continues. -/
def poll_handle : rift_s_hmd_t → List ReadResult → rift_s_hmd_t × List PollEvent
  | priv, [] => (priv, [])
  | priv, ReadResult.readErr :: _ => (priv, [PollEvent.evLogReadError])
  | priv, ReadResult.readEmpty :: _ => (priv, [])
  | priv, ReadResult.readData buf :: rest =>
    ((poll_handle (process_report priv buf).1 rest).1,
     (process_report priv buf).2 ++ (poll_handle (process_report priv buf).1 rest).2)

/-- `KEEPALIVE_INTERVAL_MS` from the protocol header. -/
def KEEPALIVE_INTERVAL_MS : ℕ := 1000

/-- `update_hmd`: first the keepalive check (once per invocation, against the
wall time `t` from `ohmd_get_tick`), then each of the 3 HID handles is polled
in order, skipping NULL handles. -/
def update_hmd (priv : rift_s_hmd_t) (t : ℚ)
    (reads : Fin 3 → List ReadResult) : rift_s_hmd_t × List PollEvent :=
  let ka :=
    if t - priv.last_keep_alive ≥ (KEEPALIVE_INTERVAL_MS : ℚ) / 1000 then
      ({ priv with last_keep_alive := t }, [PollEvent.evKeepalive])
    else (priv, [])
  let h0 := if ka.1.handles_present 0 then poll_handle ka.1 (reads 0) else (ka.1, [])
  let h1 := if h0.1.handles_present 1 then poll_handle h0.1 (reads 1) else (h0.1, [])
  let h2 := if h1.1.handles_present 2 then poll_handle h1.1 (reads 2) else (h1.1, [])
  (h2.1, ka.2 ++ h0.2 ++ h1.2 ++ h2.2)

/-- The `ohmd_float_value` selectors handled by `getf_hmd`; `otherValue`
stands for every other enumerator, all of which hit the `default` branch. -/
inductive ohmd_float_value
  | OHMD_DISTORTION_K
  | OHMD_ROTATION_QUAT
  | OHMD_POSITION_VECTOR
  | OHMD_CONTROLS_STATE
  | otherValue
deriving DecidableEq

/-- `getf_hmd`: the float-value query on the HMD itself.  The caller's output
buffer is modelled as 6 floats (the largest write, `OHMD_DISTORTION_K`, fills
6).  Returns the C return value and the buffer after the call. -/
def getf_hmd (hmd : rift_s_hmd_t) (type : ohmd_float_value)
    (out : Fin 6 → ℚ) : ℤ × (Fin 6 → ℚ) :=
  match type with
  | ohmd_float_value.OHMD_DISTORTION_K => (0, fun _ => 0)
  | ohmd_float_value.OHMD_ROTATION_QUAT =>
    (0, fun i =>
      if i = 0 then hmd.fusion_orient.x
      else if i = 1 then hmd.fusion_orient.y
      else if i = 2 then hmd.fusion_orient.z
      else if i = 3 then hmd.fusion_orient.w
      else out i)
  | ohmd_float_value.OHMD_POSITION_VECTOR =>
    (0, fun i => if (i : ℕ) < 3 then 0 else out i)
  | ohmd_float_value.OHMD_CONTROLS_STATE => (0, out)
  | ohmd_float_value.otherValue => (-1, out)

/-- `getf`: dispatch on the logical device id `dev_priv->id`; only id 0 (the
HMD) forwards to `getf_hmd`, every other id returns `-1` untouched. -/
def getf (devid : ℤ) (hmd : rift_s_hmd_t) (type : ohmd_float_value)
    (out : Fin 6 → ℚ) : ℤ × (Fin 6 → ℚ) :=
  if devid = 0 then getf_hmd hmd type out else (-1, out)

/-- A tracked HMD session as seen by the device-list bookkeeping: the `ptr`
field stands for the C heap pointer identity, `path` for the HID transport
path stored in the `device_list_t` node (keys modelled as naturals). -/
structure HmdSession where
  ptr : ℕ
  path : ℕ
  use_count : ℤ
deriving DecidableEq

/-- Hardware effects of the session lifecycle functions. -/
inductive LifeEvent
  | evOpenHandles
  | evReadDeviceInfo
  | evGetReport1
  | evReadImuConfig
  | evReadCalibration
  | evHmdEnable (flag : Bool)
  | evHidClose (i : Fin 3)
deriving DecidableEq

/-- The process-wide driver state: the global `rift_hmds` list, the trace of
hardware commands issued so far, and a fresh-pointer counter. -/
structure DriverWorld where
  rift_hmds : List HmdSession
  events : List LifeEvent
  next_ptr : ℕ
deriving DecidableEq

/-- `find_hmd`: walk the global list and return the session whose stored path
matches. -/
def find_hmd (w : DriverWorld) (path : ℕ) : Option HmdSession :=
  w.rift_hmds.find? (fun s => s.path == path)

/-- `open_hmd` on its success path (the happy path of the OPENING sequence):
allocate the session with `use_count = 1`, open the 3 HID handles, read the
device info, report 1 and the IMU config, read and parse the firmware
calibration, and finally `rift_s_hmd_enable(hid, true)`.  The `path` is not
stored here (the C stores it in the list node, see `push_hmd`). -/
def open_hmd (w : DriverWorld) : HmdSession × DriverWorld :=
  ({ ptr := w.next_ptr, path := 0, use_count := 1 },
   { w with
      next_ptr := w.next_ptr + 1
      events := w.events ++
        [LifeEvent.evOpenHandles, LifeEvent.evReadDeviceInfo,
         LifeEvent.evGetReport1, LifeEvent.evReadImuConfig,
         LifeEvent.evReadCalibration, LifeEvent.evHmdEnable true] })

/-- `push_hmd`: record the session in the global list under `path` (the C
`strcpy`s the path into the new `device_list_t` node and links it in front). -/
def push_hmd (w : DriverWorld) (hmd : HmdSession) (path : ℕ) : DriverWorld :=
  { w with rift_hmds := { hmd with path := path } :: w.rift_hmds }

/-- `close_hmd`: `rift_s_hmd_enable(handles[0], true)` (the source passes
`true` here while logging `"Failed to disable Rift S"` on failure), then
`hid_close` on each of the 3 handles. -/
def close_hmd (w : DriverWorld) : DriverWorld :=
  { w with
      events := w.events ++
        [LifeEvent.evHmdEnable true, LifeEvent.evHidClose 0,
         LifeEvent.evHidClose 1, LifeEvent.evHidClose 2] }

/-- Unlink the first list node whose `hmd` pointer matches, as the removal
walk in `release_hmd` does. -/
def remove_hmd : List HmdSession → ℕ → List HmdSession
  | [], _ => []
  | s :: rest, ptr => if s.ptr = ptr then rest else s :: remove_hmd rest ptr

/-- `release_hmd`: if `use_count > 1`, just decrement it; otherwise walk the
global list and, at the matching node, run `close_hmd` and unlink the node.
The session's current `use_count` is read through the pointer, here looked up
in the list. -/
def release_hmd (w : DriverWorld) (ptr : ℕ) : DriverWorld :=
  match w.rift_hmds.find? (fun s => s.ptr == ptr) with
  | none => w
  | some hmd =>
    if hmd.use_count > 1 then
      { w with
          rift_hmds := w.rift_hmds.map
            (fun s => if s.ptr = ptr then { s with use_count := s.use_count - 1 } else s) }
    else
      { close_hmd w with rift_hmds := remove_hmd w.rift_hmds ptr }

/-- `open_device`: look the path up in the global list; if absent, run
`open_hmd` and `push_hmd`.  NOTE: the found branch returns the existing
session without touching its `use_count` — there is no increment anywhere in
the source.  Then only `desc->id == 0` is accepted. -/
def open_device (w : DriverWorld) (path : ℕ) (devid : ℤ) :
    Option ℕ × DriverWorld :=
  match find_hmd w path with
  | some hmd => if devid = 0 then (some hmd.ptr, w) else (none, w)
  | none =>
    let hw := open_hmd w
    let w2 := push_hmd hw.2 hw.1 path
    if devid = 0 then (some hw.1.ptr, w2) else (none, w2)

/-- The driver world at process start: no tracked sessions, no events;
pointers start at 1 (0 stands for NULL). -/
def world0 : DriverWorld := { rift_hmds := [], events := [], next_ptr := 1 }

/-- A head-motion report whose samples are all marked invalid (`0x80`). -/
def r_invalid : rift_s_hmd_report_t :=
  { unknown_const1 := 0, timestamp := 77,
    samples := fun _ => ⟨0x80, fun _ => 0, fun _ => 0, 0⟩,
    marker := 0, unknown2 := 0, frame_timestamp := 0,
    unknown_zero1 := 0, frame_id := 0, unknown_zero2 := 0 }

/-- A fresh session with `imu_hz = 1000`, unit scales and the identity
calibration, used as a concrete instance by the witnesses. -/
def hmd0 : rift_s_hmd_t := open_hmd_state cfg1000 cal_identity

/-- IMU configuration with a non-unit temperature scale and a nonzero
temperature offset, exhibiting the difference between the code's temperature
formula and the claimed one. -/
def cfgT : rift_s_imu_config_t := ⟨1000, 1, 1, 2, 10⟩

/-- C1: the claim says the very first report processed by a session (while
`last_imu_timestamp` holds its pre-first-report sentinel) uses
`dt = 1/imu_hz` for its first sample.  The code violates this: `open_hmd`
writes the sentinel `-1` (`0xFFFFFFFF`) into the `uint32_t` field, but
`handle_hmd_report` tests `last_imu_timestamp != 0`, so the very first report
takes the delta branch.  With `imu_hz = 1000` and a first report stamped 0,
the first sample's dt is `((0 - 0xFFFFFFFF) mod 2^32)/10^6 = 1/1000000`
seconds, not the claimed `1/1000`; the second and third samples then get the
tick length. -/
theorem C1_first_report_dt_code_bug :
    ((handle_hmd_report_parsed (open_hmd_state cfg1000 cal_identity)
        (mk_report 0)).sensor_fusion.map FusionUpdate.dt) =
      [1 / 1000000, 1 / 1000, 1 / 1000] ∧
    (1 / 1000000 : ℚ) ≠ 1 / 1000 := by
  constructor
  · norm_num [handle_hmd_report_parsed, handle_samples, report_samples,
      hmd_process_sample, u32_sub, open_hmd_state, cfg1000, cal_identity,
      mk_report, zero_sample]
  · norm_num

/-- C2: the claim (and the spec's own example) says that with `imu_hz = 1000`
and consecutive report timestamps 0 then 5000, the first sample of the second
report gets `dt = (5000 - 0)/10^6 = 0.005` s.  The code violates this: after
the first report `last_imu_timestamp = 0`, which `handle_hmd_report`'s
`!= 0` guard confuses with the unset sentinel, so the second report's first
sample gets the tick length `1/1000`, not `5/1000`.  The six forwarded dts of
the two reports are evaluated below; index 3 is the second report's first
sample. -/
theorem C2_dt_next_report_code_bug :
    (((handle_hmd_report_parsed
        (handle_hmd_report_parsed (open_hmd_state cfg1000 cal_identity)
          (mk_report 0))
        (mk_report 5000)).sensor_fusion.map FusionUpdate.dt) =
      [1 / 1000000, 1 / 1000, 1 / 1000, 1 / 1000, 1 / 1000, 1 / 1000]) ∧
    (1 / 1000 : ℚ) ≠ 5 / 1000 := by
  constructor
  · norm_num [handle_hmd_report_parsed, handle_samples, report_samples,
      hmd_process_sample, u32_sub, open_hmd_state, cfg1000, cal_identity,
      mk_report, zero_sample]
  · norm_num

/-- C4: the claim says a second `acquire` of the same path yields use-count 2
(with the hardware-open sequence run once) and that release tears down only at
use-count 0.  The code performs the open sequence once, but `open_device`'s
found-session branch never increments `use_count`; after two opens of path 7
the tracked session still has `use_count = 1`, and the very first
`release_hmd` already runs the full teardown (three `hid_close` calls, list
emptied) even though a second logical handle is still outstanding. -/
theorem C4_use_count_code_bug :
    ((open_device (open_device world0 7 0).2 7 0).2.rift_hmds.map
        HmdSession.use_count) = [1] ∧
    (open_device (open_device world0 7 0).2 7 0).2.events.count
        LifeEvent.evOpenHandles = 1 ∧
    (release_hmd (open_device (open_device world0 7 0).2 7 0).2 1).rift_hmds = [] ∧
    (release_hmd (open_device (open_device world0 7 0).2 7 0).2 1).events.count
        (LifeEvent.evHidClose 0) = 1 := by decide

/-- C5: the claim says that when release brings the use-count to zero, the
session sends a best-effort disable command, closes all three transport
handles and is removed from the tracked set.  The code does close all three
handles and unlink the session, but `close_hmd` calls
`rift_s_hmd_enable(handles[0], true)` — an ENABLE command — while logging
"Failed to disable Rift S" on failure: after open (one `evHmdEnable true`) and
release, the trace holds two enable-true commands and no enable-false. -/
theorem C5_teardown_code_bug :
    (release_hmd (open_device world0 7 0).2 1).rift_hmds = [] ∧
    (release_hmd (open_device world0 7 0).2 1).events.count
        (LifeEvent.evHidClose 0) = 1 ∧
    (release_hmd (open_device world0 7 0).2 1).events.count
        (LifeEvent.evHidClose 1) = 1 ∧
    (release_hmd (open_device world0 7 0).2 1).events.count
        (LifeEvent.evHidClose 2) = 1 ∧
    (release_hmd (open_device world0 7 0).2 1).events.count
        (LifeEvent.evHmdEnable true) = 2 ∧
    (release_hmd (open_device world0 7 0).2 1).events.count
        (LifeEvent.evHmdEnable false) = 0 := by decide

lemma hmd_process_sample_fusion_length (priv : rift_s_hmd_t) (dt : ℚ)
    (s : rift_s_hmd_imu_sample_t) :
    (hmd_process_sample priv dt s).sensor_fusion.length =
      priv.sensor_fusion.length + 1 := by
  simp [hmd_process_sample]

/-- C3: if sample `i` (`i < 2`) of a decoded head-motion report has the high
bit of its validity marker set, the sample loop breaks before forwarding it,
so at most the `i` earlier samples reach `ofusion_update` (in particular
samples `i`, `i+1`, `i+2` are not forwarded); `last_imu_timestamp` is still
set to the report's timestamp afterwards. -/
theorem C3_invalid_sample_stops_forwarding (priv : rift_s_hmd_t)
    (r : rift_s_hmd_report_t) (i : Fin 3) (hi : (i : ℕ) < 2)
    (hinv : (r.samples i).marker &&& 0x80 ≠ 0)
    (hts : r.timestamp < 4294967296) :
    (handle_hmd_report_parsed priv r).sensor_fusion.length ≤
      priv.sensor_fusion.length + (i : ℕ) ∧
    (handle_hmd_report_parsed priv r).last_imu_timestamp = r.timestamp := by
  have hts' : r.timestamp % 4294967296 = r.timestamp := Nat.mod_eq_of_lt hts
  fin_cases i
  · replace hinv : (r.samples 0).marker &&& 0x80 ≠ 0 := hinv
    constructor <;>
      simp [handle_hmd_report_parsed, report_samples, handle_samples, hinv, hts']
  · replace hinv : (r.samples 1).marker &&& 0x80 ≠ 0 := hinv
    by_cases h0 : (r.samples 0).marker &&& 0x80 = 0
    · constructor <;>
        simp [handle_hmd_report_parsed, report_samples, handle_samples, h0,
          hinv, hts', hmd_process_sample_fusion_length]
    · constructor <;>
        simp [handle_hmd_report_parsed, report_samples, handle_samples, h0,
          hinv, hts']
  · simp at hi

theorem C3_witness :
    ((r_invalid.samples 0).marker &&& 0x80 ≠ 0) ∧
    (handle_hmd_report_parsed hmd0 r_invalid).sensor_fusion.length ≤
      hmd0.sensor_fusion.length + 0 ∧
    (handle_hmd_report_parsed hmd0 r_invalid).last_imu_timestamp =
      r_invalid.timestamp :=
  ⟨by simp [r_invalid],
    (C3_invalid_sample_stops_forwarding hmd0 r_invalid 0 (by norm_num)
      (by simp [r_invalid]) (by norm_num [r_invalid])).1,
    (C3_invalid_sample_stops_forwarding hmd0 r_invalid 0 (by norm_num)
      (by simp [r_invalid]) (by norm_num [r_invalid])).2⟩

/-- C6: every sample forwarded to the fusion filter is calibrated in the
fixed order — subtract the per-axis offset from the scaled raw vector, then
apply the 3×3 rectification matrix as the row-vector transform
`out[i] = Σⱼ rot[i][j]·in[j]` — separately for accelerometer and gyroscope:
the update appended by the per-sample pipeline equals the spec's composed
formulas `cal_spec_accel`/`cal_spec_gyro`. -/
lemma calib_accel_eq (cfg : rift_s_imu_config_t) (cal : rift_s_imu_calibration)
    (s : rift_s_hmd_imu_sample_t) :
    vec3f_rotate_3x3
        (vec3f_sub (hmd_scaled_accel cfg s) cal.accel.offset_at_0C)
        cal.accel.rectification =
      cal_spec_accel cfg cal s := by
  simp only [vec3f_rotate_3x3, vec3f_sub, hmd_scaled_accel, cal_spec_accel]
  rw [vec3f.mk.injEq]
  refine ⟨?_, ?_, ?_⟩ <;> ring

lemma calib_gyro_eq (cfg : rift_s_imu_config_t) (cal : rift_s_imu_calibration)
    (s : rift_s_hmd_imu_sample_t) :
    vec3f_rotate_3x3 (vec3f_sub (hmd_scaled_gyro cfg s) cal.gyro.offset)
        cal.gyro.rectification =
      cal_spec_gyro cfg cal s := by
  simp only [vec3f_rotate_3x3, vec3f_sub, hmd_scaled_gyro, cal_spec_gyro]
  rw [vec3f.mk.injEq]
  refine ⟨?_, ?_, ?_⟩ <;> ring

theorem C6_calibration_order (priv : rift_s_hmd_t) (dt : ℚ)
    (s : rift_s_hmd_imu_sample_t) :
    (hmd_process_sample priv dt s).sensor_fusion =
      priv.sensor_fusion ++
        [{ dt := dt
           gyro := cal_spec_gyro priv.imu_config priv.imu_calibration s
           accel := cal_spec_accel priv.imu_config priv.imu_calibration s
           mag := priv.raw_mag }] := by
  simp only [hmd_process_sample]
  rw [calib_accel_eq, calib_gyro_eq]

/-- C7 (corrected): the gyro and accel unit conversions are as the claim
states, and the temperature stored in the session state follows the amended
formula `(raw − temperature_offset)/temperature_scale + 25` (the code
multiplies `1/temperature_scale` into the already-offset-subtracted raw
value). -/
theorem C7_unit_conversion_amended (cfg : rift_s_imu_config_t)
    (s : rift_s_hmd_imu_sample_t) (priv : rift_s_hmd_t) (dt : ℚ) :
    hmd_scaled_gyro cfg s =
      ⟨(s.gyro 0 : ℚ) / 32768 * cfg.gyro_scale,
       (s.gyro 1 : ℚ) / 32768 * cfg.gyro_scale,
       (s.gyro 2 : ℚ) / 32768 * cfg.gyro_scale⟩ ∧
    hmd_scaled_accel cfg s =
      ⟨(s.accel 0 : ℚ) * OHMD_GRAVITY_EARTH / cfg.accel_scale,
       (s.accel 1 : ℚ) * OHMD_GRAVITY_EARTH / cfg.accel_scale,
       (s.accel 2 : ℚ) * OHMD_GRAVITY_EARTH / cfg.accel_scale⟩ ∧
    (hmd_process_sample priv dt s).temperature =
      ((s.temperature : ℚ) - priv.imu_config.temperature_offset) /
        priv.imu_config.temperature_scale + 25 := by
  refine ⟨?_, ?_, ?_⟩
  · simp only [hmd_scaled_gyro]
    rw [vec3f.mk.injEq]
    refine ⟨?_, ?_, ?_⟩ <;> ring
  · simp only [hmd_scaled_accel]
    rw [vec3f.mk.injEq]
    refine ⟨?_, ?_, ?_⟩ <;> ring
  · show 1 / priv.imu_config.temperature_scale *
        ((s.temperature : ℚ) - priv.imu_config.temperature_offset) + 25 = _
    ring

/-- C7 counterexample: with `temperature_scale = 2`, `temperature_offset =
10` and a raw temperature of 0, the code stores
`(1/2)·(0 − 10) + 25 = 20`, while the claim's formula
`raw/scale − offset + 25` gives `0/2 − 10 + 25 = 15`. -/
theorem C7_temperature_counterexample :
    (hmd_process_sample (open_hmd_state cfgT cal_identity) (1 / 1000)
        zero_sample).temperature ≠
      (zero_sample.temperature : ℚ) / cfgT.temperature_scale -
        cfgT.temperature_offset + 25 := by
  norm_num [hmd_process_sample, open_hmd_state, cfgT, zero_sample]

lemma poll_handle_stops_at_empty (pre post : List ReadResult)
    (priv : rift_s_hmd_t) :
    poll_handle priv (pre ++ ReadResult.readEmpty :: post) =
      poll_handle priv (pre ++ [ReadResult.readEmpty]) := by
  induction pre generalizing priv with
  | nil => simp [poll_handle]
  | cons hd tl ih => cases hd <;> simp [poll_handle, ih]

lemma poll_handle_stops_at_err (pre post : List ReadResult)
    (priv : rift_s_hmd_t) :
    poll_handle priv (pre ++ ReadResult.readErr :: post) =
      poll_handle priv (pre ++ [ReadResult.readErr]) := by
  induction pre generalizing priv with
  | nil => simp [poll_handle]
  | cons hd tl ih => cases hd <;> simp [poll_handle, ih]

/-- C8: per poll invocation and per handle — a zero-length read ends reading
for that handle (queued results after it are untouched); a negative read does
the same but logs the read error; the error on one handle does not affect the
session state produced by polling the remaining handles; and a buffer whose
leading id is none of 0x65/0x66/0x67 is only logged, leaving the session
state unchanged. -/
theorem C8_poll_error_handling :
    (∀ (priv : rift_s_hmd_t) (pre post : List ReadResult),
        poll_handle priv (pre ++ ReadResult.readEmpty :: post) =
          poll_handle priv (pre ++ [ReadResult.readEmpty])) ∧
    (∀ (priv : rift_s_hmd_t) (pre post : List ReadResult),
        poll_handle priv (pre ++ ReadResult.readErr :: post) =
          poll_handle priv (pre ++ [ReadResult.readErr])) ∧
    (∀ priv : rift_s_hmd_t,
        poll_handle priv [ReadResult.readErr] =
          (priv, [PollEvent.evLogReadError])) ∧
    (∀ (priv : rift_s_hmd_t) (t : ℚ) (q1 q2 : List ReadResult),
        (update_hmd priv t ![[ReadResult.readErr], q1, q2]).1 =
          (update_hmd priv t ![[], q1, q2]).1) ∧
    (∀ (priv : rift_s_hmd_t) (buf : List ℕ),
        byteAt buf 0 ≠ 0x65 → byteAt buf 0 ≠ 0x66 → byteAt buf 0 ≠ 0x67 →
        process_report priv buf =
          (priv, [PollEvent.evLogUnknownReport (byteAt buf 0)])) := by
  refine ⟨fun priv pre post => poll_handle_stops_at_empty pre post priv,
    fun priv pre post => poll_handle_stops_at_err pre post priv,
    fun priv => rfl, fun priv t q1 q2 => ?_, fun priv buf h65 h66 h67 => ?_⟩
  · simp only [update_hmd, Matrix.cons_val_zero, Matrix.cons_val_one,
      Matrix.head_cons, Matrix.cons_val_two, Matrix.tail_cons, poll_handle,
      apply_ite (f := Prod.fst), ite_self]
  · simp [process_report, h65, h66, h67]

theorem C8_witness :
    byteAt [153] 0 ≠ 0x65 ∧ byteAt [153] 0 ≠ 0x66 ∧ byteAt [153] 0 ≠ 0x67 ∧
    process_report hmd0 [153] =
      (hmd0, [PollEvent.evLogUnknownReport (byteAt [153] 0)]) :=
  ⟨by decide, by decide, by decide,
    C8_poll_error_handling.2.2.2.2 hmd0 [153] (by decide) (by decide) (by decide)⟩

/-- C9: on a system-state report (leading id 0x66), the screen-enable command
is issued exactly when the decoded proximity flag differs from the cached
`display_on`, and the cache afterwards always equals the decoded flag; when
the flag is unchanged, no command is sent and the state is untouched. -/
theorem C9_display_toggle (priv : rift_s_hmd_t) (buf : List ℕ)
    (hb : byteAt buf 0 = 0x66) :
    process_report priv buf =
      ({ priv with display_on := if byteAt buf 1 = 0 then false else true },
       if (if byteAt buf 1 = 0 then false else true) = priv.display_on then []
       else
         [PollEvent.evScreenEnable (if byteAt buf 1 = 0 then false else true)]) := by
  by_cases h1 : byteAt buf 1 = 0
  · cases hd : priv.display_on
    · have heq : ({ priv with display_on := false } : rift_s_hmd_t) = priv := by
        rw [← hd]
      simp [process_report, hb, h1, hd, heq]
    · simp [process_report, hb, h1, hd]
  · cases hd : priv.display_on
    · simp [process_report, hb, h1, hd]
    · have heq : ({ priv with display_on := true } : rift_s_hmd_t) = priv := by
        rw [← hd]
      simp [process_report, hb, h1, hd, heq]

theorem C9_witness :
    byteAt [102, 1] 0 = 0x66 ∧
    process_report hmd0 [102, 1] =
      ({ hmd0 with display_on := true }, [PollEvent.evScreenEnable true]) :=
  ⟨rfl, by
    have h := C9_display_toggle hmd0 [102, 1] rfl
    simpa [hmd0, open_hmd_state, byteAt] using h⟩

/-- C10: for every logical device with nonzero id, `getf` returns `-1` for
every value type and leaves the output buffer unmodified; the HMD device
(id 0) does support float queries (e.g. `OHMD_POSITION_VECTOR` returns 0). -/
theorem C10_nonzero_id_getf (devid : ℤ) (hmd : rift_s_hmd_t)
    (type : ohmd_float_value) (out : Fin 6 → ℚ) (h : devid ≠ 0) :
    getf devid hmd type out = (-1, out) ∧
    (getf 0 hmd ohmd_float_value.OHMD_POSITION_VECTOR out).1 = 0 := by
  constructor
  · simp [getf, h]
  · simp [getf, getf_hmd]

theorem C10_witness :
    (1 : ℤ) ≠ 0 ∧
    (getf 1 hmd0 ohmd_float_value.OHMD_ROTATION_QUAT (fun _ => 3) =
        (-1, fun _ => 3) ∧
      (getf 0 hmd0 ohmd_float_value.OHMD_POSITION_VECTOR (fun _ => 3)).1 = 0) :=
  ⟨by decide,
    C10_nonzero_id_getf 1 hmd0 ohmd_float_value.OHMD_ROTATION_QUAT
      (fun _ => 3) (by decide)⟩

end RiftS
